import Mathlib

/-!
# Model of the PESE-PIESAS component-store repository

Shallow embedding of the repository layer (`componentes.pg.repo.js`,
`componentes.prisma.repo.js`) and the HTTP layer (`app.js`) of the
PESE-PIESAS CRUD service, together with the PostgreSQL semantics of the
exact SQL statements the PG repository issues and the documented
behaviour of the Prisma client calls the Prisma repository issues.

The single table is `componentes(id SERIAL PRIMARY KEY, nombre VARCHAR NOT
NULL, tipo VARCHAR NOT NULL, marca VARCHAR, precio NUMERIC NOT NULL DEFAULT 0,
stock INT NOT NULL DEFAULT 0, creado_en TIMESTAMP NOT NULL DEFAULT NOW())`.

No operation of the system performs arithmetic on the stored numbers: every
numeric value is carried through unchanged, so numbers are modelled as `Int`
payloads of an opaque `Val`; timestamps are modelled as a `Nat` clock.
-/

/-- A JavaScript/SQL value as it flows through this system: SQL `NULL`
(also JS `null`), a text value, or a numeric value.  JS `undefined`
(an absent key) is modelled separately, as `Option.none` in `Datos`. -/
inductive Val
  | null
  | str (s : String)
  | num (n : Int)
deriving DecidableEq, Repr

/-- One row of the `componentes` table. -/
structure Row where
  id : Nat
  nombre : Val
  tipo : Val
  marca : Val
  precio : Val
  stock : Val
  creado_en : Nat
deriving DecidableEq, Repr

/-- The state of the database: the stored rows, the next value of the
`id` sequence (`SERIAL`), and the current clock used for the
`creado_en DEFAULT NOW()` column. -/
structure DB where
  rows : List Row
  nextId : Nat
  now : Nat
deriving DecidableEq, Repr

/-- The input object (`datos` / `req.body`) of `create` and `update`.
`none` models a key that is absent or explicitly `undefined`; both
repositories test presence with `!== undefined`. -/
structure Datos where
  nombre : Option Val := none
  tipo : Option Val := none
  marca : Option Val := none
  precio : Option Val := none
  stock : Option Val := none
deriving DecidableEq, Repr

/-- `true` when a value is not SQL `NULL`. -/
def notNullB : Val → Bool
  | .null => false
  | _ => true

/-- The `NOT NULL` constraints of the table hold of a row: `nombre`,
`tipo`, `precio` and `stock` are declared `NOT NULL` in the schema
(`marca` is nullable). -/
def rowNotNullOkB (r : Row) : Bool :=
  notNullB r.nombre && notNullB r.tipo && notNullB r.precio && notNullB r.stock

/-- The first `NOT NULL` column of the table (in declaration order) whose
value in `r` is `NULL`; used as the detail of a constraint-violation
error, mirroring which column PostgreSQL reports. -/
def firstNullCol (r : Row) : String :=
  if r.nombre = .null then "nombre"
  else if r.tipo = .null then "tipo"
  else if r.precio = .null then "precio"
  else "stock"

/-- An error raised by PostgreSQL while executing one of the repository's
statements.  The only constraint the issued statements can violate is a
`NOT NULL` constraint (SQLSTATE 23502); in the spec's taxonomy this is a
store-level `DataAccessError`, not a `ValidationError`. -/
inductive DbError
  | notNullViolation (column : String)
deriving DecidableEq, Repr

/-- The `id` column of each row, in storage order. -/
def dbIds (db : DB) : List Nat := db.rows.map Row.id

/-- A well-formed database state: primary-key uniqueness, every stored row
satisfies the table's `NOT NULL` constraints, and every stored id was
produced by the `SERIAL` sequence (is below `nextId`). -/
def DB.wf (db : DB) : Prop :=
  (dbIds db).Nodup ∧ ∀ r ∈ db.rows, rowNotNullOkB r = true ∧ r.id < db.nextId

instance (db : DB) : Decidable db.wf := by
  unfold DB.wf; infer_instance

/-- Insertion (by ascending `id`) into a list sorted by `id`. -/
def insertById (r : Row) : List Row → List Row
  | [] => [r]
  | x :: xs => if r.id ≤ x.id then r :: x :: xs else x :: insertById r xs

/-- `ORDER BY id ASC`: the stored rows sorted by ascending `id`. -/
def sortById (l : List Row) : List Row := l.foldr insertById []

/-- `SELECT * FROM componentes WHERE id = $1`: the matching rows in
storage order (the first of them is `rows[0]`). -/
def selectById (db : DB) (id : Nat) : List Row :=
  db.rows.filter (fun x => x.id == id)

/-- The row with the given primary key, when one is stored. -/
def findRow (db : DB) (id : Nat) : Option Row :=
  db.rows.find? (fun x => x.id == id)

/-- `INSERT INTO componentes (nombre, tipo, marca, precio, stock) VALUES
($1,$2,$3,$4,$5) RETURNING *`: the store assigns `id` from the sequence and
`creado_en` from the clock, enforces the `NOT NULL` constraints, and returns
the created row. -/
def sqlInsert (db : DB) (nombre tipo marca precio stock : Val) :
    Except DbError (DB × Row) :=
  let r : Row := ⟨db.nextId, nombre, tipo, marca, precio, stock, db.now⟩
  if rowNotNullOkB r then
    .ok ({ rows := db.rows ++ [r], nextId := db.nextId + 1, now := db.now }, r)
  else
    .error (.notNullViolation (firstNullCol r))

/-- A column of the table that the dynamic `SET` clause of the PG
repository's `update` can mention. -/
inductive Col
  | nombre
  | tipo
  | marca
  | precio
  | stock
deriving DecidableEq, Repr

/-- Assign one column of a row. -/
def setCol (r : Row) : Col → Val → Row
  | .nombre, v => { r with nombre := v }
  | .tipo, v => { r with tipo := v }
  | .marca, v => { r with marca := v }
  | .precio, v => { r with precio := v }
  | .stock, v => { r with stock := v }

/-- Apply a `SET` list (`col = $i` pairs) to a row, left to right. -/
def applyAssigns (r : Row) (assigns : List (Col × Val)) : Row :=
  assigns.foldl (fun acc cv => setCol acc cv.1 cv.2) r

/-- `UPDATE componentes SET ... WHERE id = $i RETURNING *`: every matching
row is rewritten by the `SET` list; if a rewritten row violates a
`NOT NULL` constraint the statement fails and the state is unchanged;
otherwise the new state and the list of updated rows are returned. -/
def sqlUpdate (db : DB) (id : Nat) (assigns : List (Col × Val)) :
    Except DbError (DB × List Row) :=
  let touched := (selectById db id).map (fun x => applyAssigns x assigns)
  match touched.find? (fun x => !(rowNotNullOkB x)) with
  | some bad => .error (.notNullViolation (firstNullCol bad))
  | none =>
      .ok ({ db with
              rows := db.rows.map
                (fun x => if x.id == id then applyAssigns x assigns else x) },
           touched)

/-- `DELETE FROM componentes WHERE id = $1 RETURNING *`: removes every
matching row, returning the new state and the deleted rows. -/
def sqlDelete (db : DB) (id : Nat) : DB × List Row :=
  ({ db with rows := db.rows.filter (fun x => !(x.id == id)) },
   selectById db id)

/-- The node-postgres driver sends a JS `undefined` parameter as SQL
`NULL`. -/
def undefToNull : Option Val → Val
  | none => .null
  | some v => v

/-! ## The PG-strategy repository (`componentes.pg.repo.js`) -/

/-- `getAll()`: `SELECT * FROM componentes ORDER BY id ASC`, returning
`result.rows` (always an array). -/
def pgGetAll (db : DB) : List Row := sortById db.rows

/-- `getById(id)`: `SELECT * FROM componentes WHERE id = $1`, returning
`result.rows[0] ?? null`. -/
def pgGetById (db : DB) (id : Nat) : Option Row := (selectById db id).head?

/-- `create(datos)`: destructures `datos` with defaults `marca = null`,
`precio = 0`, `stock = 0` and runs the parameterized `INSERT`, returning
`result.rows[0]`.  A missing `nombre`/`tipo` reaches the driver as
`undefined` and therefore the store as `NULL`. -/
def pgCreate (db : DB) (datos : Datos) : Except DbError (DB × Row) :=
  sqlInsert db (undefToNull datos.nombre) (undefToNull datos.tipo)
    (datos.marca.getD .null) (datos.precio.getD (.num 0))
    (datos.stock.getD (.num 0))

/-- The dynamic `SET` list the PG repository builds: one `col = $i` pair
per field of `datos` that is not `undefined`, in source order
(`nombre`, `tipo`, `marca`, `precio`, `stock`). -/
def pgAssigns (datos : Datos) : List (Col × Val) :=
  (match datos.nombre with | some v => [(Col.nombre, v)] | none => []) ++
  (match datos.tipo with | some v => [(Col.tipo, v)] | none => []) ++
  (match datos.marca with | some v => [(Col.marca, v)] | none => []) ++
  (match datos.precio with | some v => [(Col.precio, v)] | none => []) ++
  (match datos.stock with | some v => [(Col.stock, v)] | none => [])

/-- `update(id, datos)`: presence-based partial update.  With zero present
fields it performs the `getById` read instead; otherwise it runs the
dynamic `UPDATE` and returns `result.rows[0] ?? null`. -/
def pgUpdate (db : DB) (id : Nat) (datos : Datos) :
    Except DbError (DB × Option Row) :=
  let assigns := pgAssigns datos
  if assigns.isEmpty then .ok (db, pgGetById db id)
  else do
    let (db', updated) ← sqlUpdate db id assigns
    pure (db', updated.head?)

/-- `remove(id)`: `DELETE ... WHERE id = $1 RETURNING id`, returning
`result.rowCount > 0`. -/
def pgRemove (db : DB) (id : Nat) : DB × Bool :=
  let (db', deleted) := sqlDelete db id
  (db', decide (0 < deleted.length))

/-! ## The Prisma-strategy repository (`componentes.prisma.repo.js`)

The Prisma client calls (`findMany`, `findUnique`, `create`, `update`,
`delete`) are external library operations; they are modelled from the
behaviour the Prisma documentation specifies and the repository's own
comments restate: `findUnique` returns `null` for a missing id, `create`
validates argument presence and types against the schema client-side,
and `update`/`delete` throw when no record has the given id. -/

/-- An error thrown by a Prisma client call: a client-side argument
validation failure (missing/`null`/mistyped argument, named after the
offending field), or the record-not-found error (`P2025`) of
`update`/`delete` on a missing id. -/
inductive PrismaError
  | validationError (arg : String)
  | recordNotFound
deriving DecidableEq, Repr

/-- A present value fits a required `String` column. -/
def valStrB : Val → Bool
  | .str _ => true
  | _ => false

/-- A present value fits a nullable `String` column. -/
def valNullOrStrB : Val → Bool
  | .null => true
  | .str _ => true
  | _ => false

/-- A present value fits a required numeric column. -/
def valNumB : Val → Bool
  | .num _ => true
  | _ => false

/-- A required `String` argument of `create` is present and is a string. -/
def createArgStrB : Option Val → Bool
  | some v => valStrB v
  | none => false

/-- `model.findMany({ orderBy: { id: "asc" } })`. -/
def prismaFindMany (db : DB) : List Row := sortById db.rows

/-- `model.findUnique({ where: { id } })`: the row or `null`. -/
def prismaFindUnique (db : DB) (id : Nat) : Option Row := findRow db id

/-- `model.create({ data: { nombre, tipo, marca, precio, stock } })`:
client-side schema validation of each argument, then the insert; the new
row takes its `id` from the sequence and `creado_en` from the store's
clock default. -/
def prismaCreateModel (db : DB) (nombre tipo : Option Val)
    (marca precio stock : Val) : Except PrismaError (DB × Row) :=
  if !(createArgStrB nombre) then .error (.validationError "nombre")
  else if !(createArgStrB tipo) then .error (.validationError "tipo")
  else if !(valNullOrStrB marca) then .error (.validationError "marca")
  else if !(valNumB precio) then .error (.validationError "precio")
  else if !(valNumB stock) then .error (.validationError "stock")
  else
    let r : Row := ⟨db.nextId, undefToNull nombre, undefToNull tipo,
                    marca, precio, stock, db.now⟩
    .ok ({ rows := db.rows ++ [r], nextId := db.nextId + 1, now := db.now }, r)

/-- An absent field, or a present value fitting a required `String`
column. -/
def updStrOkB : Option Val → Bool
  | none => true
  | some v => valStrB v

/-- An absent field, or a present value fitting a nullable `String`
column. -/
def updNullStrOkB : Option Val → Bool
  | none => true
  | some v => valNullOrStrB v

/-- An absent field, or a present value fitting a required numeric
column. -/
def updNumOkB : Option Val → Bool
  | none => true
  | some v => valNumB v

/-- A present `update` payload value is accepted by the Prisma client for
its column: `nombre`/`tipo` must be strings (never `null`), `marca` may be
`null` or a string, `precio`/`stock` must be numbers (never `null`). -/
def updPayloadOkB (d : Datos) : Bool :=
  updStrOkB d.nombre && updStrOkB d.tipo && updNullStrOkB d.marca &&
  updNumOkB d.precio && updNumOkB d.stock

/-- The first field of an `update` payload the Prisma client rejects. -/
def firstBadArg (d : Datos) : String :=
  if !(updStrOkB d.nombre) then "nombre"
  else if !(updStrOkB d.tipo) then "tipo"
  else if !(updNullStrOkB d.marca) then "marca"
  else if !(updNumOkB d.precio) then "precio"
  else "stock"

/-- Overwrite exactly the fields present in `d`, keeping every other field
of the row (including `id` and `creado_en`) unchanged. -/
def applyDatos (r : Row) (d : Datos) : Row :=
  { r with
      nombre := d.nombre.getD r.nombre
      tipo := d.tipo.getD r.tipo
      marca := d.marca.getD r.marca
      precio := d.precio.getD r.precio
      stock := d.stock.getD r.stock }

/-- `model.update({ where: { id }, data: payload })`: client-side payload
validation, then `P2025` when no record has the id, otherwise the record
is rewritten by exactly the payload fields and returned (with an empty
payload the record is returned unchanged). -/
def prismaUpdateModel (db : DB) (id : Nat) (payload : Datos) :
    Except PrismaError (DB × Row) :=
  if !(updPayloadOkB payload) then .error (.validationError (firstBadArg payload))
  else
    match findRow db id with
    | none => .error .recordNotFound
    | some r =>
        .ok ({ db with
                rows := db.rows.map
                  (fun x => if x.id == id then applyDatos x payload else x) },
             applyDatos r payload)

/-- `model.delete({ where: { id } })`: `P2025` when no record has the id,
otherwise the record is removed and returned. -/
def prismaDeleteModel (db : DB) (id : Nat) : Except PrismaError (DB × Row) :=
  match findRow db id with
  | none => .error .recordNotFound
  | some r =>
      .ok ({ db with rows := db.rows.filter (fun x => !(x.id == id)) }, r)

/-- Repository `getAll()`. -/
def prismaRepoGetAll (db : DB) : List Row := prismaFindMany db

/-- Repository `getById(id)`. -/
def prismaRepoGetById (db : DB) (id : Nat) : Option Row := prismaFindUnique db id

/-- Repository `create(datos)`: destructures `datos` with defaults
`marca = null`, `precio = 0`, `stock = 0` and calls `Model.create`. -/
def prismaRepoCreate (db : DB) (datos : Datos) : Except PrismaError (DB × Row) :=
  prismaCreateModel db datos.nombre datos.tipo (datos.marca.getD .null)
    (datos.precio.getD (.num 0)) (datos.stock.getD (.num 0))

/-- The payload the repository's `update` builds: it starts from `{}` and
copies each field of `datos` that is not `undefined`. -/
def prismaPayload (datos : Datos) : Datos :=
  let p : Datos := {}
  let p := if datos.nombre.isSome then { p with nombre := datos.nombre } else p
  let p := if datos.tipo.isSome then { p with tipo := datos.tipo } else p
  let p := if datos.precio.isSome then { p with precio := datos.precio } else p
  let p := if datos.stock.isSome then { p with stock := datos.stock } else p
  if datos.marca.isSome then { p with marca := datos.marca } else p

/-- Repository `update(id, datos)`: builds the presence-based payload and
calls `Model.update` (which throws on a missing id). -/
def prismaRepoUpdate (db : DB) (id : Nat) (datos : Datos) :
    Except PrismaError (DB × Row) :=
  prismaUpdateModel db id (prismaPayload datos)

/-- Repository `remove(id)`: awaits `Model.delete` (which throws on a
missing id) and then returns `true`. -/
def prismaRepoRemove (db : DB) (id : Nat) : Except PrismaError (DB × Bool) := do
  let (db', _) ← prismaDeleteModel db id
  pure (db', true)

/-! ## Outcome view and input classes used to compare the two strategies -/

/-- The outcome a caller observes from a repository call: the returned
value on success, or `none` when the call throws. -/
def outcome {E α : Type} : Except E α → Option α
  | .ok a => some a
  | .error _ => none

/-- An absent-or-`null`-or-string field value. -/
def optStrLooseB : Option Val → Bool
  | none => true
  | some .null => true
  | some (.str _) => true
  | some (.num _) => false

/-- An absent-or-`null`-or-number field value. -/
def optNumLooseB : Option Val → Bool
  | none => true
  | some .null => true
  | some (.num _) => true
  | some (.str _) => false

/-- The input object is well typed for the table: text fields hold text
(or `null`, or are absent) and numeric fields hold numbers (or `null`, or
are absent).  Mistyped inputs are excluded because the two stacks coerce
them differently (the pg driver stringifies, the Prisma client rejects). -/
def Datos.wellTyped (d : Datos) : Prop :=
  (optStrLooseB d.nombre && optStrLooseB d.tipo && optStrLooseB d.marca &&
   optNumLooseB d.precio && optNumLooseB d.stock) = true

instance (d : Datos) : Decidable d.wellTyped := by
  unfold Datos.wellTyped; infer_instance

/-- The input object's present values are legal for their columns: well
typed and, for the `NOT NULL` columns (`nombre`, `tipo`, `precio`,
`stock`), not `null`. -/
def Datos.legal (d : Datos) : Prop := updPayloadOkB d = true

instance (d : Datos) : Decidable d.legal := by
  unfold Datos.legal; infer_instance

/-! ## The HTTP layer (`app.js`)

`app.js` binds, at module scope, `express`, `repo` (`require("./repository")`,
which resolves to the PG repository by default), `path`, `app` and `PORT`;
`require("dotenv").config()` binds nothing.  The identifier `pool` is never
bound, yet four handlers evaluate `pool.query(...)` inside their `try`
blocks: evaluating the unbound name throws a `ReferenceError`, which the
`catch` turns into a 500 response.  The repository selector defaults to the
PG strategy, so `repo.getAll()` is `pgGetAll`. -/

/-- The identifiers bound at module scope in `app.js`.  Only `express`,
`repo` and `path` are bound from `require`; `pool` is absent. -/
def appJsBindings : List String := ["express", "repo", "path", "app", "PORT"]

/-- An exception observable inside a handler's `try` block: evaluating an
unbound identifier (`ReferenceError`), or a rejected database query. -/
inductive JsError
  | referenceError (name : String)
  | dbFail
deriving DecidableEq, Repr

/-- Evaluating the identifier `pool` in `app.js`'s scope: a
`ReferenceError` is thrown because `pool` is not among the module's
bindings. -/
def poolRef : Except JsError Unit :=
  if appJsBindings.contains "pool" then .ok () else .error (.referenceError "pool")

/-- The body of an HTTP response as Express serializes it:
`res.json(undefined)` produces an empty body (`undef`), otherwise the
serialized value. -/
inductive JsValue
  | jsUndefined
  | rowsArr (rs : List Row)
  | rowVal (r : Row)
  | errObj (msg : String)
  | resultObj (rows : List Row) (rowCount : Nat)
deriving DecidableEq, Repr

/-- JS property access `v.rows`: a pg query-result object has a `rows`
array, but on any other value (in particular on an array, which has no
`rows` data property) the access yields `undefined`. -/
def jsRowsProp : JsValue → JsValue
  | .resultObj rows _ => .rowsArr rows
  | .rowsArr _ => .jsUndefined
  | .rowVal _ => .jsUndefined
  | .errObj _ => .jsUndefined
  | .jsUndefined => .jsUndefined

/-- An HTTP response: status code and serialized body. -/
structure HttpResponse where
  status : Nat
  body : JsValue
deriving DecidableEq, Repr

/-- JS truthiness of a possibly-absent body field, as tested by
`if (!nombre || !tipo)`: `undefined`, `null`, `""` and `0` are falsy. -/
def truthyB : Option Val → Bool
  | none => false
  | some .null => false
  | some (.str s) => !(s == "")
  | some (.num n) => !(n == 0)

/-- A route parameter (`req.params.id`, a string) used as the `$1` of a
`WHERE id = $1` against the integer column: PostgreSQL parses the text and
fails the query when it is not an integer literal. -/
def paramSelectById (db : DB) (id : String) : Except JsError (List Row) :=
  match id.toNat? with
  | none => .error .dbFail
  | some n => .ok (selectById db n)

/-- `GET /componentes`: the `try` block awaits `repo.getAll()` (the PG
repository, which already returns the rows array) and responds
`res.json(result.rows)` — the `rows` property of that array. -/
def getAllTry (db : DB) : Except JsError (DB × HttpResponse) := do
  let result := JsValue.rowsArr (pgGetAll db)
  pure (db, ⟨200, jsRowsProp result⟩)

/-- `GET /componentes` handler: `try`/`catch` around `getAllTry`. -/
def handleGetAllRoute (db : DB) : DB × HttpResponse :=
  match getAllTry db with
  | .ok p => p
  | .error _ => (db, ⟨500, .errObj "Error al listar componentes"⟩)

/-- The `try` block of `GET /componentes/:id`: evaluates `pool.query`
(throwing, since `pool` is unbound), then would 404 on an empty result
and 200 with `rows[0]` otherwise. -/
def getByIdTry (db : DB) (id : String) : Except JsError (DB × HttpResponse) := do
  let _ ← poolRef
  let rows ← paramSelectById db id
  match rows with
  | [] => pure (db, ⟨404, .errObj "No encontrado"⟩)
  | r :: _ => pure (db, ⟨200, .rowVal r⟩)

/-- `GET /componentes/:id` handler. -/
def handleGetByIdRoute (db : DB) (id : String) : DB × HttpResponse :=
  match getByIdTry db id with
  | .ok p => p
  | .error _ => (db, ⟨500, .errObj "Error al obtener componentes"⟩)

/-- The `try` block of `POST /componentes`: evaluates `pool.query` on the
parameterized `INSERT` (throwing, since `pool` is unbound), then would
respond 201 with the created row. -/
def postTry (db : DB) (body : Datos) : Except JsError (DB × HttpResponse) := do
  let _ ← poolRef
  match sqlInsert db (undefToNull body.nombre) (undefToNull body.tipo)
      (body.marca.getD .null) (body.precio.getD (.num 0))
      (body.stock.getD (.num 0)) with
  | .ok (db', r) => pure (db', ⟨201, .rowVal r⟩)
  | .error _ => .error .dbFail

/-- `POST /componentes` handler: validates `if (!nombre || !tipo)` before
the `try` block, responding 400, and otherwise runs the `try`/`catch`. -/
def handlePostRoute (db : DB) (body : Datos) : DB × HttpResponse :=
  if !(truthyB body.nombre && truthyB body.tipo) then
    (db, ⟨400, .errObj "Campos obligatorios: nombre y tipo"⟩)
  else
    match postTry db body with
    | .ok p => p
    | .error _ => (db, ⟨500, .errObj "Error al crear componentes"⟩)

/-- `x ?? null`, applied to each body field before the COALESCE update. -/
def coalesceParam : Option Val → Val
  | none => .null
  | some v => v

/-- The `UPDATE ... SET col = COALESCE($i, col) ... WHERE id = $6` of the
PUT handler: a `NULL` parameter keeps the stored value, a non-`NULL`
parameter overwrites it. -/
def putCoalesceUpdate (db : DB) (id : Nat) (body : Datos) : DB × List Row :=
  let upd := fun (x : Row) =>
    { x with
        nombre := if coalesceParam body.nombre = .null then x.nombre else coalesceParam body.nombre
        tipo := if coalesceParam body.tipo = .null then x.tipo else coalesceParam body.tipo
        marca := if coalesceParam body.marca = .null then x.marca else coalesceParam body.marca
        precio := if coalesceParam body.precio = .null then x.precio else coalesceParam body.precio
        stock := if coalesceParam body.stock = .null then x.stock else coalesceParam body.stock }
  ({ db with rows := db.rows.map (fun x => if x.id == id then upd x else x) },
   (selectById db id).map upd)

/-- The `try` block of `PUT /componentes/:id`: validates
`if (!nombre || !tipo)` (responding 400), then evaluates `pool.query`
(throwing, since `pool` is unbound), then would 404 on a missing id and
otherwise run the COALESCE update and respond 200. -/
def putTry (db : DB) (id : String) (body : Datos) :
    Except JsError (DB × HttpResponse) := do
  if !(truthyB body.nombre && truthyB body.tipo) then
    pure (db, ⟨400, .errObj "Campos obligatorios: nombre y tipo"⟩)
  else do
    let _ ← poolRef
    let rows ← paramSelectById db id
    if rows.isEmpty then pure (db, ⟨404, .errObj "No encontrado"⟩)
    else
      match id.toNat? with
      | none => .error .dbFail
      | some n =>
          let (db', updated) := putCoalesceUpdate db n body
          match updated with
          | [] => pure (db', ⟨200, .jsUndefined⟩)
          | r :: _ => pure (db', ⟨200, .rowVal r⟩)

/-- `PUT /componentes/:id` handler. -/
def handlePutRoute (db : DB) (id : String) (body : Datos) : DB × HttpResponse :=
  match putTry db id body with
  | .ok p => p
  | .error _ => (db, ⟨500, .errObj "Error al actualizar componente"⟩)

/-- The `try` block of `DELETE /componentes/:id`: evaluates `pool.query`
(throwing, since `pool` is unbound), then would 404 when nothing was
deleted and 204 otherwise. -/
def deleteTry (db : DB) (id : String) : Except JsError (DB × HttpResponse) := do
  let _ ← poolRef
  match id.toNat? with
  | none => .error .dbFail
  | some n =>
      let (db', deleted) := sqlDelete db n
      if deleted.isEmpty then pure (db, ⟨404, .errObj "No encontrado"⟩)
      else pure (db', ⟨204, .jsUndefined⟩)

/-- `DELETE /componentes/:id` handler. -/
def handleDeleteRoute (db : DB) (id : String) : DB × HttpResponse :=
  match deleteTry db id with
  | .ok p => p
  | .error _ => (db, ⟨500, .errObj "Error al eliminar componente"⟩)

/-! ## Concrete sample states and inputs -/

/-- The freshly created table: no rows, `SERIAL` sequence at 1. -/
def emptyDb : DB := ⟨[], 1, 0⟩

/-- A sample stored row (the first seed row of the schema script, with its
price in whole currency units). -/
def row1 : Row :=
  ⟨1, .str "Ryzen 5 5600", .str "CPU", .str "AMD", .num 129, .num 12, 0⟩

/-- A database holding exactly `row1`. -/
def db1 : DB := ⟨[row1], 2, 0⟩

/-! ## Helper lemmas -/

/-- Under primary-key uniqueness, `find?` by the id of a stored row finds
exactly that row. -/
theorem find_by_id_of_nodup (l : List Row) (hnd : (l.map Row.id).Nodup)
    (r : Row) (hr : r ∈ l) : l.find? (fun x => x.id == r.id) = some r := by
  induction l with
  | nil => cases hr
  | cons a tl ih =>
    rcases List.mem_cons.mp hr with h | hmem
    · subst h
      simp [List.find?_cons]
    · have hid : a.id ≠ r.id := by
        have h1 : a.id ∉ tl.map Row.id := (List.nodup_cons.mp hnd).1
        have h2 : r.id ∈ tl.map Row.id := List.mem_map_of_mem Row.id hmem
        intro h
        exact h1 (h ▸ h2)
      rw [List.find?_cons]
      have : (a.id == r.id) = false := by
        simp [hid]
      rw [this]
      exact ih (List.nodup_cons.mp hnd).2 hmem

/-- Under primary-key uniqueness, filtering by the id of a stored row
yields exactly that row. -/
theorem filter_by_id_of_nodup (l : List Row) (hnd : (l.map Row.id).Nodup)
    (r : Row) (hr : r ∈ l) : l.filter (fun x => x.id == r.id) = [r] := by
  induction l with
  | nil => cases hr
  | cons a tl ih =>
    rcases List.mem_cons.mp hr with h | hmem
    · subst h
      have hnone : ∀ x ∈ tl, ¬((fun x => x.id == r.id) x = true) := by
        intro x hx hbeq
        have h1 : r.id ∉ tl.map Row.id := (List.nodup_cons.mp hnd).1
        have : x.id = r.id := by simpa using hbeq
        exact h1 (this ▸ List.mem_map_of_mem Row.id hx)
      rw [List.filter_cons]
      simp only [beq_self_eq_true, if_pos]
      rw [List.filter_eq_nil_iff.mpr hnone]
    · have hid : a.id ≠ r.id := by
        have h1 : a.id ∉ tl.map Row.id := (List.nodup_cons.mp hnd).1
        have h2 : r.id ∈ tl.map Row.id := List.mem_map_of_mem Row.id hmem
        intro h
        exact h1 (h ▸ h2)
      rw [List.filter_cons]
      have : (a.id == r.id) = false := by simp [hid]
      rw [this]
      simp only [Bool.false_eq_true, if_neg, not_false_iff]
      exact ih (List.nodup_cons.mp hnd).2 hmem

/-- The head of a filtered list is the first element satisfying the
predicate. -/
theorem head_filter_eq_find (p : Row → Bool) (l : List Row) :
    (l.filter p).head? = l.find? p := by
  induction l with
  | nil => rfl
  | cons a tl ih =>
    cases h : p a with
    | true => simp [List.filter_cons, List.find?_cons, h]
    | false => simp [List.filter_cons, List.find?_cons, h, ih]

/-- A per-id rewrite that matches no stored row leaves the row list
unchanged. -/
theorem map_if_id_of_no_match (l : List Row) (id : Nat) (f : Row → Row)
    (h : ∀ x ∈ l, x.id ≠ id) :
    l.map (fun x => if x.id == id then f x else x) = l := by
  induction l with
  | nil => rfl
  | cons a tl ih =>
    have ha : (a.id == id) = false := by simp [h a (List.mem_cons_self a tl)]
    rw [List.map_cons, ha, if_neg Bool.false_ne_true,
      ih fun x hx => h x (List.mem_cons_of_mem a hx)]

/-- Variant of `map_if_id_of_no_match` with a propositional condition. -/
theorem map_if_id_of_no_match_prop (l : List Row) (id : Nat) (f : Row → Row)
    (h : ∀ x ∈ l, x.id ≠ id) :
    l.map (fun x => if x.id = id then f x else x) = l := by
  induction l with
  | nil => rfl
  | cons a tl ih =>
    rw [List.map_cons, if_neg (h a (List.mem_cons_self a tl)),
      ih fun x hx => h x (List.mem_cons_of_mem a hx)]

/-- The dynamic `SET` list of the PG `update` rewrites a row exactly as
the presence-based field overwrite does. -/
theorem applyAssigns_pgAssigns (x : Row) (d : Datos) :
    applyAssigns x (pgAssigns d) = applyDatos x d := by
  obtain ⟨n, t, m, p, s⟩ := d
  cases n <;> cases t <;> cases m <;> cases p <;> cases s <;> rfl

/-- The payload the Prisma repository builds from `datos` is `datos`
itself: it copies exactly the present fields. -/
theorem prismaPayload_eq (d : Datos) : prismaPayload d = d := by
  obtain ⟨n, t, m, p, s⟩ := d
  cases n <;> cases t <;> cases m <;> cases p <;> cases s <;> rfl

/-- Overwriting with the empty field set is the identity. -/
theorem applyDatos_empty (r : Row) : applyDatos r {} = r := rfl

/-- The `SET` list is empty exactly when every field of `datos` is
absent. -/
theorem pgAssigns_isEmpty_iff (d : Datos) :
    (pgAssigns d).isEmpty = true ↔ d = {} := by
  obtain ⟨n, t, m, p, s⟩ := d
  cases n <;> cases t <;> cases m <;> cases p <;> cases s <;> simp [pgAssigns]

/-- `applyAssigns` never touches `id` or `creado_en`. -/
theorem applyAssigns_frame (assigns : List (Col × Val)) (x : Row) :
    (applyAssigns x assigns).id = x.id ∧
    (applyAssigns x assigns).creado_en = x.creado_en := by
  induction assigns generalizing x with
  | nil => exact ⟨rfl, rfl⟩
  | cons cv tl ih =>
    have step : (setCol x cv.1 cv.2).id = x.id ∧
        (setCol x cv.1 cv.2).creado_en = x.creado_en := by
      cases cv.1 <;> exact ⟨rfl, rfl⟩
    have := ih (setCol x cv.1 cv.2)
    exact ⟨by rw [applyAssigns] at *; simp only [List.foldl_cons]; rw [this.1, step.1],
           by rw [applyAssigns] at *; simp only [List.foldl_cons]; rw [this.2, step.2]⟩

/-- Shapes of a well-typed text field value. -/
theorem optStrLoose_cases (o : Option Val) (h : optStrLooseB o = true) :
    o = none ∨ o = some .null ∨ ∃ s, o = some (.str s) := by
  match o with
  | none => exact Or.inl rfl
  | some .null => exact Or.inr (Or.inl rfl)
  | some (.str s) => exact Or.inr (Or.inr ⟨s, rfl⟩)
  | some (.num n) => simp [optStrLooseB] at h

/-- Shapes of a well-typed numeric field value. -/
theorem optNumLoose_cases (o : Option Val) (h : optNumLooseB o = true) :
    o = none ∨ o = some .null ∨ ∃ n, o = some (.num n) := by
  match o with
  | none => exact Or.inl rfl
  | some .null => exact Or.inr (Or.inl rfl)
  | some (.num n) => exact Or.inr (Or.inr ⟨n, rfl⟩)
  | some (.str s) => simp [optNumLooseB] at h

/-- A legal text-field overwrite keeps a `NOT NULL` column non-null. -/
theorem notNull_getD_str (o : Option Val) (w : Val)
    (ho : updStrOkB o = true) (hw : notNullB w = true) :
    notNullB (o.getD w) = true := by
  match o with
  | none => exact hw
  | some .null => simp [updStrOkB, valStrB] at ho
  | some (.str s) => rfl
  | some (.num n) => simp [updStrOkB, valStrB] at ho

/-- A legal numeric-field overwrite keeps a `NOT NULL` column non-null. -/
theorem notNull_getD_num (o : Option Val) (w : Val)
    (ho : updNumOkB o = true) (hw : notNullB w = true) :
    notNullB (o.getD w) = true := by
  match o with
  | none => exact hw
  | some .null => simp [updNumOkB, valNumB] at ho
  | some (.num n) => rfl
  | some (.str s) => simp [updNumOkB, valNumB] at ho

/-- Overwriting a constraint-satisfying row with a legal payload yields a
constraint-satisfying row. -/
theorem rowNotNullOk_applyDatos (r : Row) (d : Datos)
    (h1 : rowNotNullOkB r = true) (h2 : updPayloadOkB d = true) :
    rowNotNullOkB (applyDatos r d) = true := by
  simp only [updPayloadOkB, Bool.and_eq_true] at h2
  obtain ⟨⟨⟨⟨hn, ht⟩, hm⟩, hp⟩, hs⟩ := h2
  simp only [rowNotNullOkB, Bool.and_eq_true] at h1 ⊢
  obtain ⟨⟨⟨h1n, h1t⟩, h1p⟩, h1s⟩ := h1
  exact ⟨⟨⟨notNull_getD_str _ _ hn h1n, notNull_getD_str _ _ ht h1t⟩,
    notNull_getD_num _ _ hp h1p⟩, notNull_getD_num _ _ hs h1s⟩

/-- The stored row the PG `getById` returns is the `find?` result. -/
theorem pgGetById_eq_findRow (db : DB) (id : Nat) :
    pgGetById db id = findRow db id := by
  unfold pgGetById findRow selectById
  exact head_filter_eq_find _ _

/-- With a well-formed state, `findRow` at the id of a stored row returns
that row. -/
theorem findRow_of_mem (db : DB) (r : Row) (hwf : db.wf) (hr : r ∈ db.rows) :
    findRow db r.id = some r :=
  find_by_id_of_nodup db.rows hwf.1 r hr

/-- PG `update` at the id of a stored row, with a payload whose overwrite
satisfies the constraints: the row is rewritten in place and returned. -/
theorem pgUpdate_existing (db : DB) (r : Row) (d : Datos) (hwf : db.wf)
    (hr : r ∈ db.rows) (hok : rowNotNullOkB (applyDatos r d) = true) :
    pgUpdate db r.id d =
      .ok ({ db with
              rows := db.rows.map
                (fun x => if x.id == r.id then applyDatos x d else x) },
           some (applyDatos r d)) := by
  cases hne : (pgAssigns d).isEmpty with
  | true =>
      have hd : d = {} := (pgAssigns_isEmpty_iff d).mp hne
      subst hd
      have hfind : pgGetById db r.id = some r := by
        rw [pgGetById_eq_findRow]
        exact findRow_of_mem db r hwf hr
      simp [pgUpdate, hne, hfind, applyDatos_empty]
  | false =>
      have hfil : selectById db r.id = [r] :=
        filter_by_id_of_nodup db.rows hwf.1 r hr
      have hbad : (!(rowNotNullOkB (applyDatos r d))) = false := by
        rw [hok]; rfl
      simp [pgUpdate, hne, sqlUpdate, hfil, applyAssigns_pgAssigns, hbad,
        List.find?_cons]

/-- PG `update` at the id of a stored row, with a payload whose overwrite
violates a `NOT NULL` constraint: the statement fails and nothing
changes. -/
theorem pgUpdate_existing_bad (db : DB) (r : Row) (d : Datos) (hwf : db.wf)
    (hr : r ∈ db.rows) (hne : (pgAssigns d).isEmpty = false)
    (hbad : rowNotNullOkB (applyDatos r d) = false) :
    pgUpdate db r.id d =
      .error (.notNullViolation (firstNullCol (applyDatos r d))) := by
  have hfil : selectById db r.id = [r] :=
    filter_by_id_of_nodup db.rows hwf.1 r hr
  have hb : (!(rowNotNullOkB (applyDatos r d))) = true := by
    rw [hbad]; rfl
  simp [pgUpdate, hne, sqlUpdate, hfil, applyAssigns_pgAssigns, hb,
    List.find?_cons]

/-- PG `update` at an id with no stored row returns `null` and leaves the
state unchanged, whatever the payload. -/
theorem pgUpdate_missing (db : DB) (id : Nat) (d : Datos)
    (h : findRow db id = none) : pgUpdate db id d = .ok (db, none) := by
  have hnm : ∀ x ∈ db.rows, ¬((fun x => x.id == id) x = true) :=
    List.find?_eq_none.mp h
  have hfil : selectById db id = [] := by
    unfold selectById
    exact List.filter_eq_nil_iff.mpr hnm
  cases hne : (pgAssigns d).isEmpty with
  | true =>
      have hhead : pgGetById db id = none := by
        rw [pgGetById_eq_findRow]; exact h
      simp [pgUpdate, hne, hhead]
  | false =>
      have hid : ∀ x ∈ db.rows, x.id ≠ id :=
        fun x hx heq => hnm x hx (by simp [heq])
      simp [pgUpdate, hne, sqlUpdate, hfil,
        map_if_id_of_no_match db.rows id _ hid,
        map_if_id_of_no_match_prop db.rows id _ hid]

/-- PG `remove` reports `true` exactly when some stored row has the id. -/
theorem pgRemove_true_iff (db : DB) (id : Nat) :
    (pgRemove db id).2 = true ↔ ∃ r ∈ db.rows, r.id = id := by
  simp only [pgRemove, sqlDelete, selectById, decide_eq_true_eq,
    List.length_pos, Ne, List.filter_eq_nil_iff]
  push_neg
  constructor
  · rintro ⟨r, hr, hbeq⟩
    exact ⟨r, hr, by simpa using hbeq⟩
  · rintro ⟨r, hr, hid⟩
    exact ⟨r, hr, by simp [hid]⟩

/-- A second `remove` of the same id reports `false`. -/
theorem pgRemove_twice (db : DB) (id : Nat) :
    (pgRemove (pgRemove db id).1 id).2 = false := by
  simp only [pgRemove, sqlDelete, selectById, List.filter_filter]
  have : ∀ x : Row, ((x.id == id) && !(x.id == id)) = false := by
    intro x
    cases x.id == id <;> rfl
  simp [this]

/-- PG `remove` at the id of a stored row deletes it and reports
`true`. -/
theorem pgRemove_existing (db : DB) (r : Row) (hr : r ∈ db.rows) :
    pgRemove db r.id =
      ({ db with rows := db.rows.filter (fun x => !(x.id == r.id)) }, true) := by
  have hmem : r ∈ selectById db r.id := by
    unfold selectById
    exact List.mem_filter.mpr ⟨hr, by simp⟩
  have hlen : decide (0 < (selectById db r.id).length) = true := by
    simp [List.length_pos_of_mem hmem]
  simp [pgRemove, sqlDelete, hlen]

/-- PG `remove` at an id with no stored row reports `false` and leaves the
state unchanged. -/
theorem pgRemove_missing (db : DB) (id : Nat)
    (h : ∀ x ∈ db.rows, x.id ≠ id) : pgRemove db id = (db, false) := by
  have hfil : selectById db id = [] := by
    unfold selectById
    exact List.filter_eq_nil_iff.mpr fun x hx heq => h x hx (by simpa using heq)
  have hkeep : db.rows.filter (fun x => !(x.id == id)) = db.rows :=
    List.filter_eq_self.mpr fun x hx => by simp [h x hx]
  simp [pgRemove, sqlDelete, hfil, hkeep]

/-- Prisma `update` at the id of a stored row with an accepted payload
rewrites the row in place and returns it. -/
theorem prismaUpdate_existing (db : DB) (r : Row) (d : Datos) (hwf : db.wf)
    (hr : r ∈ db.rows) (hleg : updPayloadOkB d = true) :
    prismaRepoUpdate db r.id d =
      .ok ({ db with
              rows := db.rows.map
                (fun x => if x.id == r.id then applyDatos x d else x) },
           applyDatos r d) := by
  simp [prismaRepoUpdate, prismaPayload_eq, prismaUpdateModel, hleg,
    findRow_of_mem db r hwf hr]

/-- Prisma `update` with a payload value the client rejects throws a
validation error. -/
theorem prismaUpdate_bad_payload (db : DB) (id : Nat) (d : Datos)
    (hleg : updPayloadOkB d = false) :
    prismaRepoUpdate db id d = .error (.validationError (firstBadArg d)) := by
  simp [prismaRepoUpdate, prismaPayload_eq, prismaUpdateModel, hleg]

/-- Prisma `update` at an id with no stored row (and an accepted payload)
throws the record-not-found error. -/
theorem prismaUpdate_missing (db : DB) (id : Nat) (d : Datos)
    (hleg : updPayloadOkB d = true) (h : findRow db id = none) :
    prismaRepoUpdate db id d = .error .recordNotFound := by
  simp [prismaRepoUpdate, prismaPayload_eq, prismaUpdateModel, hleg, h]

/-- Prisma `update` at an id with no stored row never succeeds. -/
theorem prismaUpdate_missing_isOk (db : DB) (id : Nat) (d : Datos)
    (h : findRow db id = none) : (prismaRepoUpdate db id d).isOk = false := by
  cases hleg : updPayloadOkB d with
  | true => rw [prismaUpdate_missing db id d hleg h]; rfl
  | false => rw [prismaUpdate_bad_payload db id d hleg]; rfl

/-- Prisma `remove` at the id of a stored row deletes it and returns
`true`. -/
theorem prismaRemove_existing (db : DB) (r : Row) (hwf : db.wf)
    (hr : r ∈ db.rows) :
    prismaRepoRemove db r.id =
      .ok ({ db with rows := db.rows.filter (fun x => !(x.id == r.id)) },
           true) := by
  simp [prismaRepoRemove, prismaDeleteModel, findRow_of_mem db r hwf hr]

/-- Prisma `remove` at an id with no stored row throws the record-not-found
error. -/
theorem prismaRemove_missing (db : DB) (id : Nat)
    (h : findRow db id = none) :
    prismaRepoRemove db id = .error .recordNotFound := by
  simp [prismaRepoRemove, prismaDeleteModel, h]

/-- On a well-typed input the two strategies' `create` calls have the same
outcome: the same new state and created row, or both throw (the PG strategy
with a store constraint violation, the Prisma strategy with a client-side
validation error). -/
theorem createOutcome_agree (db : DB) (d : Datos) (h : d.wellTyped) :
    outcome (pgCreate db d) = outcome (prismaRepoCreate db d) := by
  obtain ⟨n, t, m, p, s⟩ := d
  unfold Datos.wellTyped at h
  simp only [Bool.and_eq_true] at h
  obtain ⟨⟨⟨⟨h1, h2⟩, h3⟩, h4⟩, h5⟩ := h
  rcases optStrLoose_cases _ h1 with rfl | rfl | ⟨sn, rfl⟩ <;>
    rcases optStrLoose_cases _ h2 with rfl | rfl | ⟨st, rfl⟩ <;>
      rcases optStrLoose_cases _ h3 with rfl | rfl | ⟨sm, rfl⟩ <;>
        rcases optNumLoose_cases _ h4 with rfl | rfl | ⟨np, rfl⟩ <;>
          rcases optNumLoose_cases _ h5 with rfl | rfl | ⟨ns, rfl⟩ <;>
            simp [pgCreate, sqlInsert, prismaRepoCreate, prismaCreateModel,
              undefToNull, rowNotNullOkB, notNullB, valStrB, valNullOrStrB,
              valNumB, createArgStrB, outcome]

/-- A well-typed payload the Prisma client rejects makes the PG `update`
fail as well: the offending field is present (so the `SET` list is
non-empty) and `null`, so the rewritten row violates a `NOT NULL`
constraint. -/
theorem pg_fails_of_payload_bad (r : Row) (d : Datos) (hwt : d.wellTyped)
    (hbad : updPayloadOkB d = false) :
    (pgAssigns d).isEmpty = false ∧
    rowNotNullOkB (applyDatos r d) = false := by
  obtain ⟨n, t, m, p, s⟩ := d
  unfold Datos.wellTyped at hwt
  simp only [Bool.and_eq_true] at hwt
  obtain ⟨⟨⟨⟨h1, h2⟩, h3⟩, h4⟩, h5⟩ := hwt
  rcases optStrLoose_cases _ h1 with rfl | rfl | ⟨sn, rfl⟩ <;>
    rcases optStrLoose_cases _ h2 with rfl | rfl | ⟨st, rfl⟩ <;>
      rcases optStrLoose_cases _ h3 with rfl | rfl | ⟨sm, rfl⟩ <;>
        rcases optNumLoose_cases _ h4 with rfl | rfl | ⟨np, rfl⟩ <;>
          rcases optNumLoose_cases _ h5 with rfl | rfl | ⟨ns, rfl⟩ <;>
            simp_all [updPayloadOkB, updStrOkB, updNullStrOkB, updNumOkB,
              pgAssigns, applyDatos, rowNotNullOkB, notNullB, valStrB,
              valNullOrStrB, valNumB]

/-- On an id that exists in a well-formed state, the two strategies'
`update` calls have the same outcome: the same new state and updated row
(with the Prisma result wrapped in `some` to match the PG return shape),
or both throw. -/
theorem updateOutcome_agree (db : DB) (id : Nat) (d : Datos) (hwf : db.wf)
    (hwt : d.wellTyped) (hex : ∃ r ∈ db.rows, r.id = id) :
    outcome (pgUpdate db id d) =
      (outcome (prismaRepoUpdate db id d)).map (fun q => (q.1, some q.2)) := by
  obtain ⟨r, hr, rfl⟩ := hex
  cases hleg : updPayloadOkB d with
  | true =>
      have hok : rowNotNullOkB (applyDatos r d) = true :=
        rowNotNullOk_applyDatos r d ((hwf.2 r hr).1) hleg
      rw [pgUpdate_existing db r d hwf hr hok,
        prismaUpdate_existing db r d hwf hr hleg]
      rfl
  | false =>
      have hpg := pg_fails_of_payload_bad r d hwt hleg
      rw [pgUpdate_existing_bad db r d hwf hr hpg.1 hpg.2,
        prismaUpdate_bad_payload db r.id d hleg]
      rfl

/-- On an id that exists in a well-formed state, the Prisma `remove`
succeeds with exactly the PG `remove`'s result. -/
theorem removeOutcome_agree (db : DB) (id : Nat) (hwf : db.wf)
    (hex : ∃ r ∈ db.rows, r.id = id) :
    prismaRepoRemove db id = .ok (pgRemove db id) := by
  obtain ⟨r, hr, rfl⟩ := hex
  rw [prismaRemove_existing db r hwf hr, pgRemove_existing db r hr]

/-! ## Claims -/

/-- C1, counterexample: on an id with no stored row the two strategies do
not return results of identical meaning: `update` returns `null` in the PG
strategy but throws in the Prisma strategy, and `remove` returns `false`
in the PG strategy but throws in the Prisma strategy. -/
theorem c1_counterexample :
    outcome (pgUpdate emptyDb 1 { precio := some (.num 50) }) =
      some (emptyDb, none) ∧
    outcome (prismaRepoUpdate emptyDb 1 { precio := some (.num 50) }) = none ∧
    (pgRemove emptyDb 1).2 = false ∧
    prismaRepoRemove emptyDb 1 = .error .recordNotFound :=
  ⟨rfl, rfl, rfl, rfl⟩

/-- C2, counterexample: `update` on a missing id returns `null` in the PG
strategy but throws the record-not-found error in the Prisma strategy. -/
theorem c2_counterexample :
    pgUpdate emptyDb 2 { precio := some (.num 50) } = .ok (emptyDb, none) ∧
    prismaRepoUpdate emptyDb 2 { precio := some (.num 50) } =
      .error .recordNotFound :=
  ⟨rfl, rfl⟩

/-- C3, counterexample: `remove` of a missing id returns `false` in the PG
strategy but throws the record-not-found error in the Prisma strategy, so
the boolean-and-never-errors contract does not hold in both strategies. -/
theorem c3_counterexample :
    pgRemove emptyDb 3 = (emptyDb, false) ∧
    prismaRepoRemove emptyDb 3 = .error .recordNotFound :=
  ⟨rfl, rfl⟩

/-- C4, counterexample: with the key `nombre` present but `null`, neither
strategy changes the column — the PG strategy fails with the store's
`NOT NULL` constraint violation and the Prisma strategy with a client-side
validation error — refuting "changed regardless of its value (including
null)" for the `NOT NULL` columns. -/
theorem c4_counterexample :
    pgUpdate db1 1 { nombre := some .null } =
      .error (.notNullViolation "nombre") ∧
    prismaRepoUpdate db1 1 { nombre := some .null } =
      .error (.validationError "nombre") :=
  ⟨rfl, rfl⟩

/-- C8, counterexample: `update(id, {})` on a missing id returns `null` in
the PG strategy but throws the record-not-found error in the Prisma
strategy. -/
theorem c8_counterexample :
    pgUpdate emptyDb 4 {} = .ok (emptyDb, none) ∧
    prismaRepoUpdate emptyDb 4 {} = .error .recordNotFound :=
  ⟨rfl, rfl⟩

/-- C10, counterexample: PG-strategy `create` with `nombre` missing does
fail, but with the store's `NOT NULL` constraint violation (the spec's
`DataAccessError` class), not with a `ValidationError`. -/
theorem c10_counterexample :
    pgCreate emptyDb { tipo := some (.str "CPU") } =
      .error (.notNullViolation "nombre") :=
  rfl

/-- C6: the `GET /componentes` handler responds 200 but with an empty
(`undefined`) body, never the serialized array: `repo.getAll()` already
returns the rows array, whose `rows` property is `undefined`, and the
handler serializes that.  In particular even for the empty table the
response body is not the empty array. -/
theorem c6_get_all_drops_rows :
    (∀ db : DB, handleGetAllRoute db = (db, ⟨200, .jsUndefined⟩)) ∧
    handleGetAllRoute emptyDb ≠ (emptyDb, ⟨200, .rowsArr (pgGetAll emptyDb)⟩) :=
  ⟨fun _ => rfl, by decide⟩

/-- When `findRow` misses, no stored row has the id. -/
theorem no_match_of_findRow_none (db : DB) (id : Nat)
    (h : findRow db id = none) : ∀ x ∈ db.rows, x.id ≠ id := by
  intro x hx heq
  exact List.find?_eq_none.mp h x hx (by simp [heq])

/-- C1 (amended): the two strategies agree on `getAll`, on `getById`, on
`create` for well-typed inputs, and on `update` and `remove` whenever a row
with the id exists; on a missing id, the PG strategy's `update` returns
`null` and its `remove` returns `false`, while the Prisma strategy's
`update` and `remove` throw. -/
theorem c1_amended :
    (∀ db : DB, pgGetAll db = prismaRepoGetAll db) ∧
    (∀ (db : DB) (id : Nat), pgGetById db id = prismaRepoGetById db id) ∧
    (∀ (db : DB) (d : Datos), d.wellTyped →
      outcome (pgCreate db d) = outcome (prismaRepoCreate db d)) ∧
    (∀ (db : DB) (id : Nat) (d : Datos), db.wf → d.wellTyped →
      (∃ r ∈ db.rows, r.id = id) →
      outcome (pgUpdate db id d) =
        (outcome (prismaRepoUpdate db id d)).map (fun q => (q.1, some q.2))) ∧
    (∀ (db : DB) (id : Nat), db.wf → (∃ r ∈ db.rows, r.id = id) →
      prismaRepoRemove db id = .ok (pgRemove db id)) ∧
    (∀ (db : DB) (id : Nat) (d : Datos), findRow db id = none →
      pgUpdate db id d = .ok (db, none) ∧
      (prismaRepoUpdate db id d).isOk = false) ∧
    (∀ (db : DB) (id : Nat), findRow db id = none →
      pgRemove db id = (db, false) ∧
      prismaRepoRemove db id = .error .recordNotFound) := by
  refine ⟨fun _ => rfl, fun db id => pgGetById_eq_findRow db id,
    createOutcome_agree, updateOutcome_agree, removeOutcome_agree,
    fun db id d h => ⟨pgUpdate_missing db id d h,
      prismaUpdate_missing_isOk db id d h⟩,
    fun db id h => ⟨pgRemove_missing db id (no_match_of_findRow_none db id h),
      prismaRemove_missing db id h⟩⟩

/-- C1, witness: the amended agreement evaluated at the one-row state for
an existing id, and the missing-id divergence evaluated at the empty
state. -/
theorem c1_witness :
    outcome (pgUpdate db1 1 { precio := some (.num 50) }) =
      (outcome (prismaRepoUpdate db1 1 { precio := some (.num 50) })).map
        (fun q => (q.1, some q.2)) ∧
    prismaRepoRemove db1 1 = .ok (pgRemove db1 1) ∧
    pgUpdate emptyDb 7 { precio := some (.num 50) } = .ok (emptyDb, none) :=
  ⟨c1_amended.2.2.2.1 db1 1 { precio := some (.num 50) } (by decide) (by decide)
      ⟨row1, by decide, by decide⟩,
   c1_amended.2.2.2.2.1 db1 1 (by decide) ⟨row1, by decide, by decide⟩,
   (c1_amended.2.2.2.2.2.1 emptyDb 7 { precio := some (.num 50) } (by decide)).1⟩

/-- C2 (amended): on an id that matches no row, the PG strategy's `update`
returns `null` (for every field object) and leaves the state unchanged,
while the Prisma strategy's `update` never succeeds — it throws. -/
theorem c2_amended :
    ∀ (db : DB) (id : Nat) (d : Datos), findRow db id = none →
      pgUpdate db id d = .ok (db, none) ∧
      (prismaRepoUpdate db id d).isOk = false :=
  fun db id d h =>
    ⟨pgUpdate_missing db id d h, prismaUpdate_missing_isOk db id d h⟩

/-- C2, witness: the amended behaviour at the empty state with a partial
field object and with the empty field object. -/
theorem c2_witness :
    (pgUpdate emptyDb 5 { nombre := some (.str "X") } = .ok (emptyDb, none) ∧
      (prismaRepoUpdate emptyDb 5 { nombre := some (.str "X") }).isOk = false) ∧
    (pgUpdate emptyDb 6 {} = .ok (emptyDb, none) ∧
      (prismaRepoUpdate emptyDb 6 {}).isOk = false) :=
  ⟨c2_amended emptyDb 5 { nombre := some (.str "X") } (by decide),
   c2_amended emptyDb 6 {} (by decide)⟩

/-- C3 (amended): the PG strategy's `remove` returns `true` exactly when a
row with the id existed, returns `false` on a second remove of the same id,
and never errors; the Prisma strategy's `remove` returns `true` when the
row exists (deleting like the PG strategy) but throws the record-not-found
error on a missing id. -/
theorem c3_amended :
    (∀ (db : DB) (id : Nat),
      (pgRemove db id).2 = true ↔ ∃ r ∈ db.rows, r.id = id) ∧
    (∀ (db : DB) (id : Nat), (pgRemove (pgRemove db id).1 id).2 = false) ∧
    (∀ (db : DB) (id : Nat), db.wf → (∃ r ∈ db.rows, r.id = id) →
      prismaRepoRemove db id = .ok ((pgRemove db id).1, true)) ∧
    (∀ (db : DB) (id : Nat), findRow db id = none →
      prismaRepoRemove db id = .error .recordNotFound) := by
  refine ⟨pgRemove_true_iff, pgRemove_twice, ?_, prismaRemove_missing⟩
  intro db id hwf hex
  rw [removeOutcome_agree db id hwf hex]
  have h2 : (pgRemove db id).2 = true := (pgRemove_true_iff db id).mpr hex
  rw [show pgRemove db id = ((pgRemove db id).1, (pgRemove db id).2) from rfl,
    h2]

/-- C3, witness: the prisma/PG agreement on the stored id 1 and the prisma
throw on the missing id 8. -/
theorem c3_witness :
    prismaRepoRemove db1 1 = .ok ((pgRemove db1 1).1, true) ∧
    prismaRepoRemove db1 8 = .error .recordNotFound :=
  ⟨c3_amended.2.2.1 db1 1 (by decide) ⟨row1, by decide, by decide⟩,
   c3_amended.2.2.2 db1 8 (by decide)⟩

/-- C4 (amended): for every existing id and every field object whose
present values are legal for their columns (`null` only for the nullable
`marca`), both strategies' `update` rewrites the row by exactly the present
keys — a column changes if and only if its key is present, and omitted keys
keep their stored values — as captured by `applyDatos`. -/
theorem c4_amended :
    ∀ (db : DB) (r : Row) (d : Datos), db.wf → r ∈ db.rows → d.legal →
      pgUpdate db r.id d =
        .ok ({ db with
                rows := db.rows.map
                  (fun x => if x.id == r.id then applyDatos x d else x) },
             some (applyDatos r d)) ∧
      prismaRepoUpdate db r.id d =
        .ok ({ db with
                rows := db.rows.map
                  (fun x => if x.id == r.id then applyDatos x d else x) },
             applyDatos r d) := by
  intro db r d hwf hr hleg
  have hok := rowNotNullOk_applyDatos r d ((hwf.2 r hr).1) hleg
  exact ⟨pgUpdate_existing db r d hwf hr hok,
    prismaUpdate_existing db r d hwf hr hleg⟩

/-- C4, witness: updating the stored row with `marca` set to `null` and
`precio` to 50 changes exactly those two columns in both strategies. -/
theorem c4_witness :
    pgUpdate db1 1 { marca := some .null, precio := some (.num 50) } =
      .ok (⟨[⟨1, .str "Ryzen 5 5600", .str "CPU", .null, .num 50, .num 12, 0⟩],
            2, 0⟩,
           some ⟨1, .str "Ryzen 5 5600", .str "CPU", .null, .num 50, .num 12, 0⟩) ∧
    prismaRepoUpdate db1 1 { marca := some .null, precio := some (.num 50) } =
      .ok (⟨[⟨1, .str "Ryzen 5 5600", .str "CPU", .null, .num 50, .num 12, 0⟩],
            2, 0⟩,
           ⟨1, .str "Ryzen 5 5600", .str "CPU", .null, .num 50, .num 12, 0⟩) :=
  c4_amended db1 row1 { marca := some .null, precio := some (.num 50) }
    (by decide) (by decide) (by decide)

/-- C8 (amended): `update(id, {})` is a no-op read in both strategies when
the id exists (the current row is returned and the state is unchanged); on
a missing id the PG strategy returns `null` while the Prisma strategy
throws the record-not-found error. -/
theorem c8_amended :
    (∀ (db : DB) (id : Nat), pgUpdate db id {} = .ok (db, findRow db id)) ∧
    (∀ (db : DB) (r : Row), db.wf → r ∈ db.rows →
      prismaRepoUpdate db r.id {} = .ok (db, r)) ∧
    (∀ (db : DB) (id : Nat), findRow db id = none →
      prismaRepoUpdate db id {} = .error .recordNotFound) := by
  refine ⟨?_, ?_, fun db id h => prismaUpdate_missing db id {} rfl h⟩
  · intro db id
    have h : pgUpdate db id ({} : Datos) = .ok (db, pgGetById db id) := rfl
    rw [h, pgGetById_eq_findRow]
  · intro db r hwf hr
    rw [prismaUpdate_existing db r {} hwf hr rfl]
    have hrows : db.rows.map
        (fun x => if x.id == r.id then applyDatos x {} else x) = db.rows := by
      simp [applyDatos_empty]
    rw [hrows]
    rfl

/-- C8, witness: the no-op read at the stored id 1 and the throw at the
missing id 9. -/
theorem c8_witness :
    prismaRepoUpdate db1 1 {} = .ok (db1, row1) ∧
    prismaRepoUpdate db1 9 {} = .error .recordNotFound :=
  ⟨c8_amended.2.1 db1 row1 (by decide) (by decide),
   c8_amended.2.2 db1 9 (by decide)⟩

/-- Bind on a successful `Except` computation applies the
continuation. -/
theorem except_bind_ok {E α β : Type} (a : α) (f : α → Except E β) :
    ((.ok a : Except E α) >>= f) = f a := rfl

/-- Bind on a failed `Except` computation propagates the error. -/
theorem except_bind_error {E α β : Type} (e : E) (f : α → Except E β) :
    ((.error e : Except E α) >>= f) = .error e := rfl

/-- `pure` for `Except` is `ok`. -/
theorem except_pure {E α : Type} (a : α) :
    (pure a : Except E α) = .ok a := rfl

/-- Rewriting rows in place with an id- and `creado_en`-preserving
function preserves the `(id, creado_en)` column pair of every row. -/
theorem map_idCreado_if (l : List Row) (id : Nat) (g : Row → Row)
    (hg : ∀ x, (g x).id = x.id ∧ (g x).creado_en = x.creado_en) :
    (l.map (fun x => if x.id == id then g x else x)).map
      (fun x => (x.id, x.creado_en)) =
      l.map (fun x => (x.id, x.creado_en)) := by
  induction l with
  | nil => rfl
  | cons a tl ih =>
    simp only [List.map_cons, ih]
    congr 1
    cases h : a.id == id with
    | true => simp [h, (hg a).1, (hg a).2]
    | false => simp [h]

/-- A successful dynamic `UPDATE` preserves `id` and `creado_en` of every
stored row. -/
theorem sqlUpdate_frame (db : DB) (id : Nat) (assigns : List (Col × Val))
    (db' : DB) (out : List Row) (h : sqlUpdate db id assigns = .ok (db', out)) :
    db'.rows.map (fun x => (x.id, x.creado_en)) =
      db.rows.map (fun x => (x.id, x.creado_en)) := by
  simp only [sqlUpdate] at h
  split at h
  · exact absurd h (by simp)
  · simp only [Except.ok.injEq, Prod.mk.injEq] at h
    obtain ⟨hdb, -⟩ := h
    subst hdb
    exact map_idCreado_if db.rows id _ fun x => applyAssigns_frame assigns x

/-- The PG `update` never modifies `id` or `creado_en`. -/
theorem pgUpdate_frame (db : DB) (id : Nat) (d : Datos) (db' : DB)
    (res : Option Row) (h : pgUpdate db id d = .ok (db', res)) :
    db'.rows.map (fun x => (x.id, x.creado_en)) =
      db.rows.map (fun x => (x.id, x.creado_en)) := by
  cases hne : (pgAssigns d).isEmpty with
  | true =>
      simp [pgUpdate, hne] at h
      obtain ⟨hdb, -⟩ := h
      subst hdb
      rfl
  | false =>
      cases hs : sqlUpdate db id (pgAssigns d) with
      | error e =>
          simp [pgUpdate, hne, hs, except_bind_error] at h
      | ok p =>
          obtain ⟨pdb, pout⟩ := p
          simp [pgUpdate, hne, hs, except_bind_ok, except_pure] at h
          obtain ⟨hdb, -⟩ := h
          subst hdb
          exact sqlUpdate_frame db id (pgAssigns d) pdb pout hs

/-- The Prisma `update` never modifies `id` or `creado_en`. -/
theorem prismaUpdate_frame (db : DB) (id : Nat) (d : Datos) (db' : DB)
    (r' : Row) (h : prismaRepoUpdate db id d = .ok (db', r')) :
    db'.rows.map (fun x => (x.id, x.creado_en)) =
      db.rows.map (fun x => (x.id, x.creado_en)) := by
  unfold prismaRepoUpdate prismaUpdateModel at h
  split at h
  · exact absurd h (by simp)
  · split at h
    · exact absurd h (by simp)
    · simp only [Except.ok.injEq, Prod.mk.injEq] at h
      obtain ⟨hdb, -⟩ := h
      subst hdb
      exact map_idCreado_if db.rows id _ fun x => ⟨rfl, rfl⟩

/-- C9: updating an existing row with only `{precio: 50}` changes exactly
the `precio` column in both strategies — `nombre`, `tipo`, `marca`,
`stock` (and `id`, `creado_en`) keep their prior values — and no
successful `update` call in either strategy ever modifies the `id` or
`creado_en` of any stored row. -/
theorem c9_price_only_and_frame :
    (∀ (db : DB) (r : Row), db.wf → r ∈ db.rows →
      ∃ db', pgUpdate db r.id { precio := some (.num 50) } =
          .ok (db', some { r with precio := .num 50 }) ∧
        prismaRepoUpdate db r.id { precio := some (.num 50) } =
          .ok (db', { r with precio := .num 50 })) ∧
    (∀ (db : DB) (id : Nat) (d : Datos) (db' : DB) (res : Option Row),
      pgUpdate db id d = .ok (db', res) →
      db'.rows.map (fun x => (x.id, x.creado_en)) =
        db.rows.map (fun x => (x.id, x.creado_en))) ∧
    (∀ (db : DB) (id : Nat) (d : Datos) (db' : DB) (r' : Row),
      prismaRepoUpdate db id d = .ok (db', r') →
      db'.rows.map (fun x => (x.id, x.creado_en)) =
        db.rows.map (fun x => (x.id, x.creado_en))) := by
  refine ⟨?_, pgUpdate_frame, prismaUpdate_frame⟩
  intro db r hwf hr
  have hok : rowNotNullOkB (applyDatos r { precio := some (.num 50) }) = true :=
    rowNotNullOk_applyDatos r _ ((hwf.2 r hr).1) rfl
  exact ⟨_, pgUpdate_existing db r _ hwf hr hok,
    prismaUpdate_existing db r _ hwf hr rfl⟩

/-- C9, witness: updating the stored row with `{precio: 50}` changes only
its price in both strategies. -/
theorem c9_witness :
    ∃ db', pgUpdate db1 1 { precio := some (.num 50) } =
        .ok (db',
          some ⟨1, .str "Ryzen 5 5600", .str "CPU", .str "AMD", .num 50,
            .num 12, 0⟩) ∧
      prismaRepoUpdate db1 1 { precio := some (.num 50) } =
        .ok (db',
          ⟨1, .str "Ryzen 5 5600", .str "CPU", .str "AMD", .num 50,
            .num 12, 0⟩) :=
  c9_price_only_and_frame.1 db1 row1 (by decide) (by decide)

/-- Evaluating `pool` in `app.js` throws: the identifier is unbound. -/
theorem poolRef_err : poolRef = .error (.referenceError "pool") := rfl

/-- C5: because `app.js` never binds `pool` (its requires bind only
`express`, `repo` and `path`), the `GET /componentes/:id`, `POST`
(with truthy `nombre` and `tipo`), `PUT` (with truthy `nombre` and
`tipo`) and `DELETE` handlers all take the catch branch and respond 500 —
never 200, 201, 204 or 404 — leaving the state unchanged. -/
theorem c5_pool_unbound_500 :
    (∀ (db : DB) (id : String), handleGetByIdRoute db id =
      (db, ⟨500, .errObj "Error al obtener componentes"⟩)) ∧
    (∀ (db : DB) (body : Datos), truthyB body.nombre = true →
      truthyB body.tipo = true →
      handlePostRoute db body =
        (db, ⟨500, .errObj "Error al crear componentes"⟩)) ∧
    (∀ (db : DB) (id : String) (body : Datos), truthyB body.nombre = true →
      truthyB body.tipo = true →
      handlePutRoute db id body =
        (db, ⟨500, .errObj "Error al actualizar componente"⟩)) ∧
    (∀ (db : DB) (id : String), handleDeleteRoute db id =
      (db, ⟨500, .errObj "Error al eliminar componente"⟩)) := by
  refine ⟨fun db id => rfl, ?_, ?_, fun db id => rfl⟩
  · intro db body h1 h2
    unfold handlePostRoute
    rw [h1, h2]
    rfl
  · intro db id body h1 h2
    unfold handlePutRoute putTry
    rw [h1, h2]
    rfl

/-- C5, witness: with both required fields truthy, the POST and PUT
handlers respond 500 on the empty state. -/
theorem c5_witness :
    handlePostRoute emptyDb
        { nombre := some (.str "X"), tipo := some (.str "CPU") } =
      (emptyDb, ⟨500, .errObj "Error al crear componentes"⟩) ∧
    handlePutRoute emptyDb "1"
        { nombre := some (.str "X"), tipo := some (.str "CPU") } =
      (emptyDb, ⟨500, .errObj "Error al actualizar componente"⟩) :=
  ⟨c5_pool_unbound_500.2.1 emptyDb
      { nombre := some (.str "X"), tipo := some (.str "CPU") }
      (by decide) (by decide),
   c5_pool_unbound_500.2.2.1 emptyDb "1"
      { nombre := some (.str "X"), tipo := some (.str "CPU") }
      (by decide) (by decide)⟩

/-- C7: the PUT handler responds 400 whenever `nombre` or `tipo` is absent
from the request body — it validates both as always-required — while the
repository's `update` accepts any subset of fields: on an existing id with
legal values it succeeds, rewriting exactly the present fields. -/
theorem c7_put_requires_nombre_tipo :
    (∀ (db : DB) (id : String) (body : Datos),
      body.nombre = none ∨ body.tipo = none →
      handlePutRoute db id body =
        (db, ⟨400, .errObj "Campos obligatorios: nombre y tipo"⟩)) ∧
    (∀ (db : DB) (r : Row) (d : Datos), db.wf → r ∈ db.rows → d.legal →
      pgUpdate db r.id d =
        .ok ({ db with
                rows := db.rows.map
                  (fun x => if x.id == r.id then applyDatos x d else x) },
             some (applyDatos r d))) := by
  constructor
  · intro db id body h
    rcases h with h | h
    · unfold handlePutRoute putTry
      rw [h]
      rfl
    · unfold handlePutRoute putTry
      rw [h]
      simp [truthyB, Bool.and_false, except_pure]
  · intro db r d hwf hr hleg
    exact pgUpdate_existing db r d hwf hr
      (rowNotNullOk_applyDatos r d ((hwf.2 r hr).1) hleg)

/-- C7, witness: a body holding only `{stock: 7}` is rejected with 400 by
the PUT handler, yet the same field object is accepted by the PG
repository's `update` on the stored id 1. -/
theorem c7_witness :
    handlePutRoute emptyDb "1" { stock := some (.num 7) } =
      (emptyDb, ⟨400, .errObj "Campos obligatorios: nombre y tipo"⟩) ∧
    pgUpdate db1 1 { stock := some (.num 7) } =
      .ok (⟨[⟨1, .str "Ryzen 5 5600", .str "CPU", .str "AMD", .num 129,
              .num 7, 0⟩], 2, 0⟩,
           some ⟨1, .str "Ryzen 5 5600", .str "CPU", .str "AMD", .num 129,
             .num 7, 0⟩) :=
  ⟨c7_put_requires_nombre_tipo.1 emptyDb "1" { stock := some (.num 7) }
      (Or.inl rfl),
   c7_put_requires_nombre_tipo.2 db1 row1 { stock := some (.num 7) }
      (by decide) (by decide) (by decide)⟩

/-- PG `create` with `nombre` or `tipo` absent fails with the store's
`NOT NULL` constraint violation. -/
theorem pgCreate_fails_of_missing (db : DB) (d : Datos)
    (h : d.nombre = none ∨ d.tipo = none) :
    ∃ c, pgCreate db d = .error (.notNullViolation c) := by
  rcases h with h | h
  · exact ⟨"nombre", by
      simp [pgCreate, sqlInsert, h, undefToNull, rowNotNullOkB, notNullB,
        firstNullCol]⟩
  · have htn : undefToNull d.tipo = .null := by rw [h]; rfl
    by_cases hnn : undefToNull d.nombre = .null
    · refine ⟨"nombre", ?_⟩
      simp [pgCreate, sqlInsert, rowNotNullOkB, notNullB, firstNullCol, hnn]
    · refine ⟨"tipo", ?_⟩
      have hbn : notNullB (undefToNull d.nombre) = true := by
        cases hv : undefToNull d.nombre with
        | null => exact absurd hv hnn
        | str s => rfl
        | num n => rfl
      simp [pgCreate, sqlInsert, rowNotNullOkB, notNullB, hbn, htn,
        firstNullCol, hnn]

/-- Prisma `create` with `nombre` or `tipo` absent fails with a
client-side validation error. -/
theorem prismaCreate_fails_of_missing (db : DB) (d : Datos)
    (h : d.nombre = none ∨ d.tipo = none) :
    ∃ a, prismaRepoCreate db d = .error (.validationError a) := by
  by_cases hn : createArgStrB d.nombre = true
  · rcases h with h | h
    · rw [h] at hn
      simp [createArgStrB] at hn
    · refine ⟨"tipo", ?_⟩
      have ht : createArgStrB d.tipo = false := by rw [h]; rfl
      simp [prismaRepoCreate, prismaCreateModel, hn, ht]
  · refine ⟨"nombre", ?_⟩
    rw [Bool.not_eq_true] at hn
    simp [prismaRepoCreate, prismaCreateModel, hn]

/-- C10 (amended): `create` never silently accepts a missing `nombre` or
`tipo`: the PG strategy fails with the store's `NOT NULL` constraint
violation (the spec's `DataAccessError` class rather than a
`ValidationError`) and the Prisma strategy fails with a client-side
validation error; when both required fields are supplied as strings, both
strategies return the created row with defaults `marca` → `null`,
`precio` → 0, `stock` → 0. -/
theorem c10_amended :
    (∀ (db : DB) (d : Datos), d.nombre = none ∨ d.tipo = none →
      (∃ c, pgCreate db d = .error (.notNullViolation c)) ∧
      (∃ a, prismaRepoCreate db d = .error (.validationError a))) ∧
    (∀ (db : DB) (sn st : String),
      pgCreate db { nombre := some (.str sn), tipo := some (.str st) } =
        .ok ({ rows := db.rows ++
                 [⟨db.nextId, .str sn, .str st, .null, .num 0, .num 0,
                   db.now⟩],
               nextId := db.nextId + 1, now := db.now },
             ⟨db.nextId, .str sn, .str st, .null, .num 0, .num 0, db.now⟩) ∧
      prismaRepoCreate db { nombre := some (.str sn), tipo := some (.str st) } =
        .ok ({ rows := db.rows ++
                 [⟨db.nextId, .str sn, .str st, .null, .num 0, .num 0,
                   db.now⟩],
               nextId := db.nextId + 1, now := db.now },
             ⟨db.nextId, .str sn, .str st, .null, .num 0, .num 0, db.now⟩)) := by
  refine ⟨fun db d h => ⟨pgCreate_fails_of_missing db d h,
    prismaCreate_fails_of_missing db d h⟩, fun db sn st => ⟨rfl, rfl⟩⟩

/-- C10, witness: on the empty state, `create` without `nombre` fails in
both strategies, and `create` with both required fields returns the row
with the defaults applied. -/
theorem c10_witness :
    (∃ c, pgCreate emptyDb { tipo := some (.str "GPU") } =
      .error (.notNullViolation c)) ∧
    (∃ a, prismaRepoCreate emptyDb { tipo := some (.str "GPU") } =
      .error (.validationError a)) ∧
    pgCreate emptyDb { nombre := some (.str "A"), tipo := some (.str "B") } =
      .ok (⟨[⟨1, .str "A", .str "B", .null, .num 0, .num 0, 0⟩], 2, 0⟩,
           ⟨1, .str "A", .str "B", .null, .num 0, .num 0, 0⟩) :=
  ⟨(c10_amended.1 emptyDb { tipo := some (.str "GPU") } (Or.inl rfl)).1,
   (c10_amended.1 emptyDb { tipo := some (.str "GPU") } (Or.inl rfl)).2,
   (c10_amended.2 emptyDb "A" "B").1⟩
